import Mathlib

/-!
Shallow embedding of `simplified_openvpn_config.py` and
`simplified_openvpn_suggest.py` from the simplified-openvpn repository.

The settings store (`SimplifiedOpenvpnConfig`) keeps a class-level dictionary
with a `server` pool and a `client` pool; every field is exposed through a
Python property whose setter validates and mutates the pool.  We model the
pools as a `Config` record, the filesystem and the absent helper module as an
`Env` record of oracles, and each property setter as a function returning an
`Outcome`: the next state together with the observable effects (printed
diagnostic lines, directories created, process exit, raised exception).
-/

namespace SOVPN

/-- JSON scalar values as they appear in the persisted configuration file. -/
inductive JValue where
  | jnull : JValue
  | jbool : Bool → JValue
  | jnum : Int → JValue
  | jstr : String → JValue
deriving DecidableEq, Repr

/-- Parsed shape of the persisted JSON file: a mapping from pool name
(`server`, `client`) to a mapping of field name to value, in file order. -/
abbrev FileData : Type := List (String × List (String × JValue))

/-- The two settings pools of `SimplifiedOpenvpnConfig.settings`, flattened
into one record.  The first four fields are the `server` pool entries whose
class-level defaults are strings; the rest default to `None` and are modelled
as options.  `slug`, `pretty_name` and `client_dir` form the `client` pool. -/
structure Config where
  server_dir : String
  easy_rsa_dir : String
  clients_dir : String
  sovpn_config_file : String
  sovpn_share_salt : Option JValue
  hostname : Option String
  ipv4 : Option String
  port : Option Int
  protocol : Option String
  slug : Option String
  pretty_name : Option String
  client_dir : Option String
deriving DecidableEq, Repr

/-- The class-level defaults assigned in the body of
`SimplifiedOpenvpnConfig` (they run once, at class definition time). -/
def defaults : Config where
  server_dir := "/etc/openvpn/"
  easy_rsa_dir := "/etc/openvpn/easy-rsa/"
  clients_dir := "/root/openvpn-clients/"
  sovpn_config_file := "/etc/openvpn/sovpn.json"
  sovpn_share_salt := none
  hostname := none
  ipv4 := none
  port := none
  protocol := none
  slug := none
  pretty_name := none
  client_dir := none

/-- Environment oracles: the filesystem (`os.path.isdir`, plus the parsed
content of the JSON file at a path, `none` meaning the file is absent) and
the `slugify` transform imported from the missing helper module. -/
structure Env where
  isdir : String → Bool
  file : String → Option FileData
  slugify : String → String

/-- Result of running one store operation: the next state plus its observable
effects.  `exitCode = some n` models `exit(n)`; `exc = some e` models an
uncaught Python exception of kind `e`. -/
structure Outcome where
  state : Config
  printed : List String
  created : List String
  exitCode : Option Nat
  exc : Option String
deriving DecidableEq, Repr

/-- An operation that succeeded silently with new state `c`. -/
def okOut (c : Config) : Outcome := ⟨c, [], [], none, none⟩

/-- An operation that raised a Python exception of kind `e`. -/
def excOut (c : Config) (e : String) : Outcome := ⟨c, [], [], none, some e⟩

/-- Modelled from the spec: `SimplifiedOpenvpnHelper.sanitize_path` lives in
`simplified_openvpn_helper.py`, which is not among the source files.  The
spec (§4.1.1) describes it as collapsing redundant separators and ensuring
exactly one trailing separator; absolute-form resolution is the identity on
the absolute inputs the store uses.  Here: collapse runs of a slash. -/
def collapseSlashes : List Char → List Char
  | [] => []
  | [c] => [c]
  | a :: b :: rest =>
      if a = '/' && b = '/' then collapseSlashes (b :: rest)
      else a :: collapseSlashes (b :: rest)

/-- Modelled from the spec: path sanitization (§4.1.1) — collapse redundant
separators, then ensure exactly one trailing separator. -/
def sanitize_path (s : String) : String :=
  let cs := collapseSlashes s.data
  if cs.getLast? = some '/' then String.mk cs else String.mk (cs ++ ['/'])

/-- Splitting a character list at every occurrence of a separator, the
list-level counterpart of `str.split(sep)`. -/
def splitOnChar (sep : Char) : List Char → List (List Char)
  | [] => [[]]
  | c :: rest =>
      match splitOnChar sep rest with
      | [] => if c = sep then [[], []] else [[c]]
      | g :: gs => if c = sep then [] :: g :: gs else (c :: g) :: gs

/-- Modelled from the spec: `SimplifiedOpenvpnHelper.is_valid_hostname` is in
the missing helper module; the spec says hostname syntax validation follows
RFC 1123-style label rules.  One label: nonempty, at most 63 characters,
alphanumerics or hyphens, no leading or trailing hyphen. -/
def is_valid_label (l : List Char) : Bool :=
  decide (0 < l.length) && decide (l.length ≤ 63) &&
  l.all (fun c => c.isAlphanum || c == '-') &&
  !(l.head? == some '-') && !(l.getLast? == some '-')

/-- Modelled from the spec: hostname syntax validation, RFC 1123-style —
dot-separated valid labels, nonempty, at most 253 characters overall. -/
def is_valid_hostname (h : String) : Bool :=
  decide (0 < h.length) && decide (h.length ≤ 253) &&
  (splitOnChar '.' h.data).all is_valid_label

/-- `str.lower()` of Python, rendered character by character. -/
def strToLower (s : String) : String := String.mk (s.data.map Char.toLower)

/-- Diagnostic lines printed by the `server_dir` setter before `exit(1)`. -/
def serverDirDiag (value : String) : List String :=
  ["Value that you specified as Server\x27s directory is invalid: (" ++ value ++ ")",
   "Make sure that the value you gave meets following requirements:",
   "> Does the directory really exist in your filesystem?",
   "> The specified directory has write and execute permissions."]

/-- Setter of the `server_dir` property: if `os.path.isdir(value)` fails,
print four diagnostic lines and `exit(1)`; otherwise store the sanitized
path in the `server` pool. -/
def server_dir_set (env : Env) (value : String) (c : Config) : Outcome :=
  if env.isdir value then
    okOut { c with server_dir := sanitize_path value }
  else
    ⟨c, serverDirDiag value, [], some 1, none⟩

/-- Diagnostic lines printed by the `easy_rsa_dir` setter before `exit(1)`. -/
def easyRsaDirDiag (value : String) : List String :=
  ["Value that you specified as directory for Easy RSA is invalid: (" ++ value ++ ")",
   "Make sure that the value you gave meets following requirements:",
   "> Does the directory really exist in your filesystem?",
   "> The specified directory has write and execute permissions."]

/-- Setter of the `easy_rsa_dir` property: same fatal contract as
`server_dir`, storing the sanitized path on success. -/
def easy_rsa_dir_set (env : Env) (value : String) (c : Config) : Outcome :=
  if env.isdir value then
    okOut { c with easy_rsa_dir := sanitize_path value }
  else
    ⟨c, easyRsaDirDiag value, [], some 1, none⟩

/-- Diagnostic lines printed by the `clients_dir` setter before `exit(1)`. -/
def clientsDirDiag (value : String) : List String :=
  ["Value that you specified as directory for clients is invalid: (" ++ value ++ ")",
   "Make sure that the value you gave meets following requirements:",
   "> Does the directory really exist in your filesystem?",
   "> The specified directory has write and execute permissions."]

/-- Setter of the `clients_dir` property.  The Python signature has an extra
`create=False` parameter, but attribute assignment (including the `setattr`
in `load_config`) can only ever pass the single assigned value, so the
`create` branches are unreachable through the property: the setter reduces
to the same fatal-on-missing contract as `server_dir`. -/
def clients_dir_set (env : Env) (value : String) (c : Config) : Outcome :=
  if env.isdir value then
    okOut { c with clients_dir := sanitize_path value }
  else
    ⟨c, clientsDirDiag value, [], some 1, none⟩

/-- Setter of the `sovpn_config_file` property: stores the value verbatim. -/
def sovpn_config_file_set (value : String) (c : Config) : Outcome :=
  okOut { c with sovpn_config_file := value }

/-- Setter of the `sovpn_share_salt` property: stores the value verbatim,
with no validation of any kind. -/
def sovpn_share_salt_set (value : JValue) (c : Config) : Outcome :=
  okOut { c with sovpn_share_salt := some value }

/-- Setter of the `hostname` property: invalid syntax prints one diagnostic
line and skips the assignment; valid input is stored as given. -/
def hostname_set (value : String) (c : Config) : Outcome :=
  if is_valid_hostname value then
    okOut { c with hostname := some value }
  else
    ⟨c, ["Value that you specified as Hostname is invalid: (" ++ value ++ ")"],
     [], none, none⟩

/-- Setter of the `port` property: `int(value)`.  Integers and booleans
coerce; strings parse or raise `ValueError`; `None` raises `TypeError`. -/
def port_set (value : JValue) (c : Config) : Outcome :=
  match value with
  | .jnum n => okOut { c with port := some n }
  | .jbool b => okOut { c with port := some (if b then 1 else 0) }
  | .jstr s =>
      match s.toInt? with
      | some n => okOut { c with port := some n }
      | none => excOut c "ValueError"
  | .jnull => excOut c "TypeError"

/-- Setter of the `protocol` property: a string whose lowercase form is in
`['udp', 'tcp']` is stored lowercased; any other value (wrong case class,
non-string) is silently ignored — no diagnostic, no exception. -/
def protocol_set (value : JValue) (c : Config) : Outcome :=
  match value with
  | .jstr s =>
      if ["udp", "tcp"].contains (strToLower s) then
        okOut { c with protocol := some (strToLower s) }
      else
        okOut c
  | _ => okOut c

/-- Setter of the `slug` property: stores `slugify(value)`; never fails. -/
def slug_set (env : Env) (value : String) (c : Config) : Outcome :=
  okOut { c with slug := some (env.slugify value) }

/-- Setter of the `pretty_name` property: stores the stripped string. -/
def pretty_name_set (value : String) (c : Config) : Outcome :=
  okOut { c with pretty_name := some value.trim }

/-- Setter of the `client_dir` property.  It takes no target value: the
parameter of the Python setter is named `create`, so the assigned value only
selects whether the directory is created.  The stored value is recomputed as
`clients_dir + slug`, sanitized; when `slug` is `None` the string
concatenation raises `TypeError`. -/
def client_dir_set (create : Bool) (c : Config) : Outcome :=
  match c.slug with
  | none => excOut c "TypeError"
  | some s =>
      let value := c.clients_dir ++ s
      ⟨{ c with client_dir := some (sanitize_path value) },
       [], if create then [value] else [], none, none⟩

/-- Truthiness of a JSON value, as Python sees the `create` argument when
`load_config` assigns `client_dir` through `setattr`. -/
def truthy : JValue → Bool
  | .jnull => false
  | .jbool b => b
  | .jnum n => decide (n ≠ 0)
  | .jstr s => decide (s ≠ "")

/-- Attribute names of a `SimplifiedOpenvpnConfig` instance as enumerated by
`dir(self)` in `load_config`: the class-body names plus the attributes every
Python object inherits from `object`. -/
def dirNames : List String :=
  ["settings", "needs_setup", "config_setup", "load_config",
   "server_dir", "easy_rsa_dir", "clients_dir", "sovpn_config_file",
   "sovpn_share_salt", "hostname", "fetch_hostname_by_config_file",
   "ipv4", "port", "protocol", "slug", "pretty_name", "client_dir",
   "__init__", "__class__", "__delattr__", "__dict__", "__dir__", "__doc__",
   "__eq__", "__format__", "__ge__", "__getattribute__", "__gt__",
   "__hash__", "__init_subclass__", "__le__", "__lt__", "__module__",
   "__ne__", "__new__", "__reduce__", "__reduce_ex__", "__repr__",
   "__setattr__", "__sizeof__", "__str__", "__subclasshook__",
   "__weakref__"]

/-- `setattr(self, key, value)` for a key known to be in `dir(self)`.  A
property name dispatches to the property setter (so validation runs); the
string-typed setters raise `TypeError` on non-string input, mirroring the
failure of the string operation each performs first; `ipv4` is a read-only
property, so assigning it raises `AttributeError`; the remaining names
(methods, `settings`, dunders) bind an instance attribute that shadows the
class one and leave both settings pools untouched. -/
def setattrModel (env : Env) (key : String) (value : JValue) (c : Config) : Outcome :=
  match key with
  | "server_dir" =>
      match value with
      | .jstr s => server_dir_set env s c
      | _ => excOut c "TypeError"
  | "easy_rsa_dir" =>
      match value with
      | .jstr s => easy_rsa_dir_set env s c
      | _ => excOut c "TypeError"
  | "clients_dir" =>
      match value with
      | .jstr s => clients_dir_set env s c
      | _ => excOut c "TypeError"
  | "sovpn_config_file" =>
      match value with
      | .jstr s => sovpn_config_file_set s c
      | _ => excOut c "TypeError"
  | "sovpn_share_salt" => sovpn_share_salt_set value c
  | "hostname" =>
      match value with
      | .jstr s => hostname_set s c
      | _ => excOut c "TypeError"
  | "ipv4" => excOut c "AttributeError"
  | "port" => port_set value c
  | "protocol" => protocol_set value c
  | "slug" =>
      match value with
      | .jstr s => slug_set env s c
      | _ => excOut c "TypeError"
  | "pretty_name" =>
      match value with
      | .jstr s => pretty_name_set s c
      | _ => excOut c "TypeError"
  | "client_dir" => client_dir_set (truthy value) c
  | _ => okOut c

/-- One step of the `load_config` loop: skip keys not in `dir(self)`,
otherwise run `setattr` and accumulate effects; once a step has exited or
raised, the remaining iterations do not run. -/
def stepKey (env : Env) (o : Outcome) (kv : String × JValue) : Outcome :=
  if o.exitCode.isSome || o.exc.isSome then o
  else if dirNames.contains kv.1 then
    let r := setattrModel env kv.1 kv.2 o.state
    ⟨r.state, o.printed ++ r.printed, o.created ++ r.created, r.exitCode, r.exc⟩
  else o

/-- `load_config`: if the file at `sovpn_config_file` exists, parse it and
assign every recognized field of every pool through `setattr`; an absent
file leaves the state untouched with no effect. -/
def load_config (env : Env) (c : Config) : Outcome :=
  match env.file c.sovpn_config_file with
  | none => okOut c
  | some data => data.foldl (fun o pool => pool.2.foldl (stepKey env) o) (okOut c)

/-- `needs_setup`: true iff the persisted file does not exist. -/
def needs_setup (env : Env) (c : Config) : Bool :=
  (env.file c.sovpn_config_file).isNone

/-- Construction of a store instance: `__init__` only calls `load_config`.
The settings dictionary is a class attribute, initialized to `defaults` once
at class definition time and shared by every instance, so `classState` is
whatever the pools hold when the constructor runs — `defaults` only in a
process where no instance has mutated them. -/
def construct (env : Env) (classState : Config) : Outcome :=
  load_config env classState

/-- `fetch_hostname_by_config_file`: re-read the persisted file; absent file
yields `None`; a present file is indexed as `data['server']['hostname']`, so
a missing pool or key raises `KeyError`; an invalid hostname yields `None`. -/
def fetch_hostname_by_config_file (env : Env) (c : Config) :
    Except String (Option String) :=
  match env.file c.sovpn_config_file with
  | none => .ok none
  | some data =>
      match List.lookup "server" data with
      | none => .error "KeyError"
      | some serverPool =>
          match List.lookup "hostname" serverPool with
          | none => .error "KeyError"
          | some v =>
              match v with
              | .jstr s => if is_valid_hostname s then .ok (some s) else .ok none
              | _ => .ok none

/-- Getter of the `hostname` property: the stored value when non-null, else
the defensive re-read of the persisted file. -/
def hostname_get (env : Env) (c : Config) : Except String (Option String) :=
  match c.hostname with
  | some h => .ok (some h)
  | none => fetch_hostname_by_config_file env c

/-- Getter of the `server_dir` property: the stored value, verbatim. -/
def server_dir_get (c : Config) : String := c.server_dir

/-- Getter of the `easy_rsa_dir` property: the stored value, verbatim. -/
def easy_rsa_dir_get (c : Config) : String := c.easy_rsa_dir

/-- Getter of the `protocol` property: the stored value, verbatim. -/
def protocol_get (c : Config) : Option String := c.protocol

/-- Getter of the `client_dir` property: the stored value, verbatim. -/
def client_dir_get (c : Config) : Option String := c.client_dir

/-- Modelled from the spec: the save operation (§2, §6, §8) is not among the
source files — only `load_config` is.  The spec describes it as serializing
the `server` pool back to the persisted JSON format, with `ipv4` never
persisted (§3: "not persisted — always re-resolved when absent") and absent
keys simply omitted (partial files are fully supported). -/
def save (c : Config) : FileData :=
  [("server",
    [("server_dir", .jstr c.server_dir),
     ("easy_rsa_dir", .jstr c.easy_rsa_dir),
     ("clients_dir", .jstr c.clients_dir),
     ("sovpn_config_file", .jstr c.sovpn_config_file)]
    ++ (match c.sovpn_share_salt with
        | some v => [("sovpn_share_salt", v)]
        | none => [])
    ++ (match c.hostname with
        | some h => [("hostname", JValue.jstr h)]
        | none => [])
    ++ (match c.port with
        | some p => [("port", JValue.jnum p)]
        | none => [])
    ++ (match c.protocol with
        | some p => [("protocol", JValue.jstr p)]
        | none => []))]

/-- `string.ascii_letters` of the Python standard library. -/
def ascii_letters : String :=
  "abcdefghijklmnopqrstuvwxyzABCDEFGHIJKLMNOPQRSTUVWXYZ"

/-- `string.digits` of the Python standard library. -/
def ascii_digits : String := "0123456789"

/-- The character pool `string.ascii_letters + string.digits` used by the
`sovpn_share_salt` suggestion. -/
def saltChars : String := ascii_letters ++ ascii_digits

/-- `random.randint(a, b)`: both endpoints included.  The draw is modelled
by reducing an arbitrary natural `r` into the inclusive range. -/
def randint (a b r : Nat) : Nat := a + r % (b - a + 1)

/-- `random.choice(chars)`: the draw is modelled by indexing the pool with
an arbitrary natural reduced modulo the pool size. -/
def randchoice (chars : String) (r : Nat) : Char :=
  chars.data.getD (r % chars.data.length) 'a'

/-- `SimplifiedOpenvpnSuggest.get_value_from_sample`: look the key up in the
`server` pool of the bundled sample; a sample without a `server` pool makes
the subscript raise `KeyError`; a missing key returns `None`. -/
def get_value_from_sample (sample : FileData) (key : String) :
    Except String (Option JValue) :=
  match List.lookup "server" sample with
  | none => .error "KeyError"
  | some serverPool => .ok (List.lookup key serverPool)

/-- The random salt built by `sovpn_share_salt` when the sample offers no
value: `random.randint(10, 16)` characters, each drawn from `saltChars`.
`r` models the length draw and `pick i` the `i`-th character draw. -/
def gen_salt (r : Nat) (pick : Nat → Nat) : String :=
  String.mk ((List.range (randint 10 16 r)).map (fun i => randchoice saltChars (pick i)))

/-- `SimplifiedOpenvpnSuggest.sovpn_share_salt`: consult the sample; when it
yields `None` (key absent, or present with a JSON null — both read back as
Python `None`), fall back to the randomly generated token. -/
def sovpn_share_salt_suggest (sample : FileData) (r : Nat) (pick : Nat → Nat) :
    Except String JValue :=
  match get_value_from_sample sample "sovpn_share_salt" with
  | .error e => .error e
  | .ok none => .ok (.jstr (gen_salt r pick))
  | .ok (some .jnull) => .ok (.jstr (gen_salt r pick))
  | .ok (some v) => .ok v

/-- Does a JSON value pass the protocol setter's check, i.e. is it a string
whose lowercase form is `udp` or `tcp`? -/
def protocolMatches : JValue → Bool
  | .jstr s => ["udp", "tcp"].contains (strToLower s)
  | _ => false

/-- The protocol invariant: the stored value is unset, `udp`, or `tcp`. -/
def protocolOK (p : Option String) : Prop :=
  p = none ∨ p = some "udp" ∨ p = some "tcp"

/-- Environment with no directories, whose persisted file (at the default
path) maps `server_dir` to a path that is not a directory. -/
def envBadServerDir : Env :=
  ⟨fun _ => false,
   fun p => if p = "/etc/openvpn/sovpn.json"
     then some [("server", [("server_dir", JValue.jstr "/nope")])] else none,
   fun s => s⟩

/-- Environment whose persisted file (at the default path) holds only a
valid hostname. -/
def envHostFile : Env :=
  ⟨fun _ => false,
   fun p => if p = "/etc/openvpn/sovpn.json"
     then some [("server", [("hostname", JValue.jstr "vpn.example.com")])] else none,
   fun s => s⟩

/-- Environment with no persisted file anywhere. -/
def envNoFile : Env := ⟨fun _ => false, fun _ => none, fun s => s⟩

/-- Environment whose persisted file (at the default path) is an empty JSON
object: present, but with no `server` pool. -/
def envEmptyFile : Env :=
  ⟨fun _ => false,
   fun p => if p = "/etc/openvpn/sovpn.json" then some [] else none,
   fun s => s⟩

/-- Environment where exactly `/srv/vpn` is a directory. -/
def envSrv : Env :=
  ⟨fun s => s == "/srv/vpn", fun _ => none, fun s => s⟩

/-- Environment whose persisted file (at the default path) holds only one
unrecognized key. -/
def envBogusFile : Env :=
  ⟨fun _ => false,
   fun p => if p = "/etc/openvpn/sovpn.json"
     then some [("server", [("bogus", JValue.jnum 1)])] else none,
   fun s => s⟩

/-- A store state whose client slug is `alice`. -/
def cAlice : Config := { defaults with slug := some "alice" }

/-- A fully-populated `server` pool, used to witness the round trip. -/
def cFull : Config :=
  { server_dir := "/etc/openvpn/"
    easy_rsa_dir := "/etc/openvpn/easy-rsa/"
    clients_dir := "/root/openvpn-clients/"
    sovpn_config_file := "/etc/openvpn/sovpn.json"
    sovpn_share_salt := some (JValue.jstr "s4ltAndPepper")
    hostname := some "vpn.example.com"
    ipv4 := none
    port := some 1194
    protocol := some "udp"
    slug := none
    pretty_name := none
    client_dir := none }

/-- Environment for the round-trip witness: every directory exists and the
persisted file holds exactly the saved `server` pool of `cFull`. -/
def envFull : Env :=
  ⟨fun _ => true,
   fun p => if p = "/etc/openvpn/sovpn.json" then some (save cFull) else none,
   fun s => s⟩

/-- Setters' whitelist check evaluated for unfolding: `setattr` on the
`hostname` key dispatches to the hostname property setter. -/
theorem setattr_hostname (env : Env) (v : String) (c : Config) :
    setattrModel env "hostname" (JValue.jstr v) c = hostname_set v c := rfl

/-- `setattr` on the `server_dir` key dispatches to its property setter. -/
theorem setattr_server_dir (env : Env) (v : String) (c : Config) :
    setattrModel env "server_dir" (JValue.jstr v) c = server_dir_set env v c := rfl

/-- `setattr` on the `easy_rsa_dir` key dispatches to its property setter. -/
theorem setattr_easy_rsa_dir (env : Env) (v : String) (c : Config) :
    setattrModel env "easy_rsa_dir" (JValue.jstr v) c = easy_rsa_dir_set env v c := rfl

/-- `setattr` on the `clients_dir` key dispatches to its property setter. -/
theorem setattr_clients_dir (env : Env) (v : String) (c : Config) :
    setattrModel env "clients_dir" (JValue.jstr v) c = clients_dir_set env v c := rfl

/-- `setattr` on the `sovpn_config_file` key dispatches to its setter. -/
theorem setattr_sovpn_config_file (env : Env) (v : String) (c : Config) :
    setattrModel env "sovpn_config_file" (JValue.jstr v) c =
      sovpn_config_file_set v c := rfl

/-- `setattr` on the `sovpn_share_salt` key dispatches to its setter. -/
theorem setattr_sovpn_share_salt (env : Env) (v : JValue) (c : Config) :
    setattrModel env "sovpn_share_salt" v c = sovpn_share_salt_set v c := rfl

/-- `setattr` on the `port` key dispatches to its property setter. -/
theorem setattr_port (env : Env) (v : JValue) (c : Config) :
    setattrModel env "port" v c = port_set v c := rfl

/-- `setattr` on the `protocol` key dispatches to its property setter. -/
theorem setattr_protocol (env : Env) (v : JValue) (c : Config) :
    setattrModel env "protocol" v c = protocol_set v c := rfl

/-- One protocol write preserves the protocol invariant. -/
theorem protocol_step_ok (c : Config) (v : JValue) (h : protocolOK c.protocol) :
    protocolOK ((protocol_set v c).state).protocol := by
  cases v with
  | jnull => simpa [protocol_set, okOut] using h
  | jbool b => simpa [protocol_set, okOut] using h
  | jnum n => simpa [protocol_set, okOut] using h
  | jstr s =>
      simp only [protocol_set]
      by_cases hm : (["udp", "tcp"].contains (strToLower s)) = true
      · rw [if_pos hm]
        have h2 : strToLower s = "udp" ∨ strToLower s = "tcp" := by
          simpa [List.contains, List.any] using hm
        rcases h2 with h2 | h2 <;> rw [h2]
        · exact Or.inr (Or.inl (by simp [okOut]))
        · exact Or.inr (Or.inr (by simp [okOut]))
      · rw [if_neg hm]; simpa [okOut] using h

/-- Any sequence of protocol writes preserves the protocol invariant. -/
theorem protocol_fold_ok (vs : List JValue) (c : Config) (h : protocolOK c.protocol) :
    protocolOK ((vs.foldl (fun st v => (protocol_set v st).state) c).protocol) := by
  induction vs generalizing c with
  | nil => exact h
  | cons v vs ih => exact ih _ (protocol_step_ok c v h)

/-- A fold of `load_config` steps over keys none of which is in `dir(self)`
leaves the accumulated outcome untouched. -/
theorem fold_unrecognized (env : Env) (kvs : List (String × JValue)) (o : Outcome)
    (h : ∀ kv ∈ kvs, dirNames.contains kv.1 = false) :
    kvs.foldl (stepKey env) o = o := by
  induction kvs generalizing o with
  | nil => rfl
  | cons kv kvs ih =>
      have h1 : dirNames.contains kv.1 = false := h kv (List.mem_cons_self kv kvs)
      have hstep : stepKey env o kv = o := by
        unfold stepKey
        by_cases hA : (o.exitCode.isSome || o.exc.isSome) = true
        · rw [if_pos hA]
        · have h1n : kv.1 ∉ dirNames := by simpa using h1
          rw [if_neg hA, if_neg (by simpa using h1n)]
      rw [List.foldl_cons, hstep]
      exact ih o (fun x hx => h x (List.mem_cons_of_mem _ hx))

/-- C1 (counterexample): the claim says no directory check or process exit
can occur during `load`, for any value in the file.  But `load_config`
assigns through `setattr`, which invokes the property setters: loading a
file whose `server_dir` is not a directory prints the fatal diagnostic and
exits with status 1. -/
theorem load_bypasses_validation_counterexample :
    (load_config envBadServerDir defaults).exitCode = some 1 ∧
    (load_config envBadServerDir defaults).printed ≠ [] := by decide

/-- C1 (amended): `load_config` assigns each recognized field through
`setattr`, which invokes the property setter, so setter-side validation runs
during load: a valid hostname value from the file is stored, while an
invalid one is dropped with a printed diagnostic. -/
theorem load_invokes_setters (env : Env) (c : Config) (v : String)
    (hfile : env.file c.sovpn_config_file =
      some [("server", [("hostname", JValue.jstr v)])]) :
    (is_valid_hostname v = true → (load_config env c).state.hostname = some v) ∧
    (is_valid_hostname v = false →
      (load_config env c).state.hostname = c.hostname ∧
      (load_config env c).printed ≠ []) := by
  unfold load_config
  rw [hfile]
  simp only [List.foldl_cons, List.foldl_nil]
  have hcont : dirNames.contains "hostname" = true := by decide
  have hmem : "hostname" ∈ dirNames := by decide
  constructor <;> intro hv <;>
    simp [stepKey, okOut, hcont, hmem, setattr_hostname, hostname_set, hv]

/-- C1 (witness): loading a file holding a valid hostname stores it. -/
theorem load_invokes_setters_witness :
    (load_config envHostFile defaults).state.hostname = some "vpn.example.com" :=
  (load_invokes_setters envHostFile defaults "vpn.example.com" (by decide)).1 (by decide)

/-- C2 (counterexample): the claim says every construction initializes every
key to its default regardless of prior instances' mutations.  But `settings`
is a class attribute shared by all instances and `__init__` only calls
`load_config`, so after one instance sets `protocol` to `tcp`, a second
construction (file absent) still sees `tcp`, not the default `None`. -/
theorem construct_reinitializes_counterexample :
    (construct envNoFile
      ((protocol_set (JValue.jstr "tcp")
        (construct envNoFile defaults).state).state)).state.protocol = some "tcp" ∧
    defaults.protocol = none := by decide

/-- C2 (amended): the recognized keys get their defaults once, at class
definition time; each construction then just attempts a load.  When the
persisted file is absent, construction raises nothing, prints nothing, and
leaves the class-level pools exactly as they were — at their defaults only
when no prior instance mutated them. -/
theorem construct_no_file (env : Env) (classState : Config)
    (hfile : env.file classState.sovpn_config_file = none) :
    construct env classState = okOut classState := by
  unfold construct load_config
  rw [hfile]

/-- C2 (witness): in a fresh process (class pools at their defaults) with no
persisted file, construction leaves every key at its default. -/
theorem construct_no_file_witness :
    construct envNoFile defaults = okOut defaults :=
  construct_no_file envNoFile defaults rfl

/-- C3 (counterexample): the claim says the hostname read never raises.  But
with a null stored hostname and a persisted file that lacks the `server`
pool, `fetch_hostname_by_config_file` indexes `data['server']['hostname']`
and raises `KeyError`. -/
theorem hostname_read_never_raises_counterexample :
    hostname_get envEmptyFile defaults = Except.error "KeyError" := rfl

/-- C3 (amended): reading `hostname` returns the stored value when non-null;
when null it re-reads the persisted file — absent file yields null, a valid
stored hostname string is returned, an invalid one yields null, but a file
missing the `server` pool or the `hostname` key raises `KeyError`. -/
theorem hostname_read_contract (env : Env) (c : Config) :
    (∀ h, c.hostname = some h → hostname_get env c = .ok (some h)) ∧
    (c.hostname = none → env.file c.sovpn_config_file = none →
      hostname_get env c = .ok none) ∧
    (∀ data, c.hostname = none → env.file c.sovpn_config_file = some data →
      List.lookup "server" data = none →
      hostname_get env c = .error "KeyError") ∧
    (∀ data sp, c.hostname = none → env.file c.sovpn_config_file = some data →
      List.lookup "server" data = some sp →
      List.lookup "hostname" sp = none →
      hostname_get env c = .error "KeyError") ∧
    (∀ data sp s, c.hostname = none → env.file c.sovpn_config_file = some data →
      List.lookup "server" data = some sp →
      List.lookup "hostname" sp = some (JValue.jstr s) →
      hostname_get env c =
        if is_valid_hostname s then .ok (some s) else .ok none) := by
  refine ⟨?_, ?_, ?_, ?_, ?_⟩ <;> intros <;>
    simp [hostname_get, fetch_hostname_by_config_file, *]

/-- C3 (witness): null stored hostname with an absent file reads as null,
and a non-null stored hostname is returned as stored. -/
theorem hostname_read_contract_witness :
    hostname_get envNoFile defaults = .ok none ∧
    hostname_get envNoFile { defaults with hostname := some "a.b" } =
      .ok (some "a.b") :=
  ⟨(hostname_read_contract envNoFile defaults).2.1 rfl rfl,
   (hostname_read_contract envNoFile { defaults with hostname := some "a.b" }).1
     "a.b" rfl⟩

/-- C4 (counterexample): the claim says a diagnostic is printed for every
invalid protocol input.  But the protocol setter prints nothing: it drops
the assignment silently. -/
theorem protocol_invalid_diagnostic_counterexample :
    (protocol_set (JValue.jstr "bogus") defaults).printed = [] ∧
    (protocol_set (JValue.jstr "bogus") defaults).state = defaults := by decide

/-- C4 (amended): an invalid hostname assignment prints one diagnostic, is
dropped, keeps the prior value, and neither exits nor raises; an invalid
protocol assignment is dropped silently — no diagnostic — keeping the prior
value, and neither exits nor raises. -/
theorem soft_validation_failures (c : Config) (v : String) (w : JValue) :
    (is_valid_hostname v = false →
      (hostname_set v c).state = c ∧ (hostname_set v c).printed ≠ [] ∧
      (hostname_set v c).exitCode = none ∧ (hostname_set v c).exc = none) ∧
    (protocolMatches w = false → protocol_set w c = okOut c) := by
  constructor
  · intro h
    simp [hostname_set, h]
  · intro h
    cases w <;> simp_all [protocol_set, protocolMatches, okOut]

/-- C4 (witness): a concrete invalid hostname is dropped with a diagnostic,
and a concrete invalid protocol is dropped with none. -/
theorem soft_validation_failures_witness :
    ((hostname_set "bad..host" defaults).state = defaults ∧
     (hostname_set "bad..host" defaults).printed ≠ [] ∧
     (hostname_set "bad..host" defaults).exitCode = none ∧
     (hostname_set "bad..host" defaults).exc = none) ∧
    protocol_set (JValue.jstr "xyz") defaults = okOut defaults :=
  ⟨(soft_validation_failures defaults "bad..host" (JValue.jstr "xyz")).1 (by decide),
   (soft_validation_failures defaults "bad..host" (JValue.jstr "xyz")).2 (by decide)⟩

/-- C5: a directory setter given a path that is not a directory prints the
four-line diagnostic (existence, write and execute permissions) and exits
with status 1, leaving the pool untouched; given an existing directory it
stores the sanitized form, and the subsequent read returns exactly it. -/
theorem dir_setter_contract (env : Env) (v : String) (c : Config) :
    (env.isdir v = false →
      server_dir_set env v c = ⟨c, serverDirDiag v, [], some 1, none⟩ ∧
      easy_rsa_dir_set env v c = ⟨c, easyRsaDirDiag v, [], some 1, none⟩) ∧
    (env.isdir v = true →
      server_dir_set env v c = okOut { c with server_dir := sanitize_path v } ∧
      server_dir_get (server_dir_set env v c).state = sanitize_path v ∧
      easy_rsa_dir_set env v c = okOut { c with easy_rsa_dir := sanitize_path v } ∧
      easy_rsa_dir_get (easy_rsa_dir_set env v c).state = sanitize_path v) := by
  constructor <;> intro h <;>
    simp [server_dir_set, easy_rsa_dir_set, server_dir_get, easy_rsa_dir_get,
      okOut, h]

/-- C5 (witness): in an environment where exactly `/srv/vpn` is a directory,
setting `server_dir` to `/bad` exits fatally with the diagnostic, and
setting it to `/srv/vpn` stores the sanitized form returned by the read. -/
theorem dir_setter_contract_witness :
    server_dir_set envSrv "/bad" defaults =
      ⟨defaults, serverDirDiag "/bad", [], some 1, none⟩ ∧
    server_dir_get (server_dir_set envSrv "/srv/vpn" defaults).state =
      sanitize_path "/srv/vpn" :=
  ⟨((dir_setter_contract envSrv "/bad" defaults).1 (by decide)).1,
   ((dir_setter_contract envSrv "/srv/vpn" defaults).2 (by decide)).2.1⟩

/-- C6: a string matching `udp`/`tcp` case-insensitively is stored
lowercased (in particular `TCP` stores `tcp`); any other value leaves the
pool unchanged; hence any sequence of protocol writes keeps the stored
protocol in { unset, `udp`, `tcp` }. -/
theorem protocol_whitelist (c : Config) (s : String) :
    ((["udp", "tcp"].contains (strToLower s)) = true →
      (protocol_set (JValue.jstr s) c).state.protocol = some (strToLower s)) ∧
    (protocol_set (JValue.jstr "TCP") c).state.protocol = some "tcp" ∧
    (∀ v : JValue, protocolMatches v = false → (protocol_set v c).state = c) ∧
    (∀ vs : List JValue, protocolOK c.protocol →
      protocolOK ((vs.foldl (fun st v => (protocol_set v st).state) c).protocol)) := by
  refine ⟨?_, ?_, ?_, ?_⟩
  · intro h
    have h2 : strToLower s = "udp" ∨ strToLower s = "tcp" := by simpa using h
    rcases h2 with h2 | h2 <;> simp [protocol_set, okOut, h2]
  · have h1 : strToLower "TCP" = "tcp" := by decide
    have h2 : (["udp", "tcp"].contains "tcp") = true := by decide
    simp [protocol_set, h1, h2, okOut]
  · intro v hv
    cases v <;> simp_all [protocol_set, protocolMatches, okOut]
  · intro vs h
    exact protocol_fold_ok vs c h

/-- C6 (witness): `UDP` stores `udp`, and the sequence [`TCP`, 3] applied to
the default state keeps the invariant. -/
theorem protocol_whitelist_witness :
    (protocol_set (JValue.jstr "UDP") defaults).state.protocol =
      some (strToLower "UDP") ∧
    protocolOK (([JValue.jstr "TCP", JValue.jnum 3].foldl
      (fun st v => (protocol_set v st).state) defaults).protocol) :=
  ⟨(protocol_whitelist defaults "UDP").1 (by decide),
   (protocol_whitelist defaults "UDP").2.2.2 [JValue.jstr "TCP", JValue.jnum 3]
     (Or.inl rfl)⟩

/-- C7: loading a file all of whose field names are unrecognized (not in
`dir(self)`) raises nothing, ignores every such field, and leaves every
recognized field exactly as it was before the load. -/
theorem load_ignores_unrecognized (env : Env) (c : Config) (data : FileData)
    (hfile : env.file c.sovpn_config_file = some data)
    (h : ∀ pool ∈ data, ∀ kv ∈ pool.2, dirNames.contains kv.1 = false) :
    load_config env c = okOut c := by
  unfold load_config
  rw [hfile]
  have main : ∀ (ds : FileData) (o : Outcome),
      (∀ pool ∈ ds, ∀ kv ∈ pool.2, dirNames.contains kv.1 = false) →
      ds.foldl (fun o pool => pool.2.foldl (stepKey env) o) o = o := by
    intro ds
    induction ds with
    | nil => intro o _; rfl
    | cons dp ds ih =>
        intro o hh
        rw [List.foldl_cons,
          fold_unrecognized env dp.2 o (hh dp (List.mem_cons_self dp ds))]
        exact ih o (fun x hx => hh x (List.mem_cons_of_mem _ hx))
  exact main data (okOut c) h

/-- C7 (witness): loading `{"server": {"bogus": 1}}` over the default state
is a silent no-op. -/
theorem load_ignores_unrecognized_witness :
    load_config envBogusFile defaults = okOut defaults :=
  load_ignores_unrecognized envBogusFile defaults
    [("server", [("bogus", JValue.jnum 1)])] (by decide) (by decide)

/-- C8: the `client_dir` setter takes no target value — the assigned value
only selects directory creation — and recomputes the stored value as the
sanitized concatenation of the current `clients_dir` and `slug`, creating
the directory when asked; with `clients_dir = /root/openvpn-clients/` and
`slug = alice` it resolves to `/root/openvpn-clients/alice/`. -/
theorem client_dir_derived (c : Config) (create : Bool) (s : String)
    (hs : c.slug = some s) :
    (client_dir_set create c).state.client_dir =
      some (sanitize_path (c.clients_dir ++ s)) ∧
    (client_dir_set create c).created =
      (if create then [c.clients_dir ++ s] else []) ∧
    (client_dir_set create c).exitCode = none ∧
    (client_dir_set create c).exc = none ∧
    (c.clients_dir = "/root/openvpn-clients/" → s = "alice" →
      client_dir_get (client_dir_set create c).state =
        some "/root/openvpn-clients/alice/") := by
  refine ⟨?_, ?_, ?_, ?_, ?_⟩ <;>
    simp [client_dir_set, hs, client_dir_get]
  intro h1 h2
  rw [h1, h2]
  decide

/-- C8 (witness): with the default `clients_dir` and slug `alice`, the
derived client directory is `/root/openvpn-clients/alice/`. -/
theorem client_dir_derived_witness :
    client_dir_get (client_dir_set true cAlice).state =
      some "/root/openvpn-clients/alice/" :=
  (client_dir_derived cAlice true "alice" rfl).2.2.2.2 rfl rfl

/-- Every character drawn by `random.choice` from the salt pool is an ASCII
letter or digit. -/
theorem randchoice_salt_alnum (m : Nat) :
    (randchoice saltChars m).isAlphanum = true := by
  unfold randchoice
  have hlen : saltChars.data.length = 62 := by decide
  have hm : m % saltChars.data.length < saltChars.data.length :=
    Nat.mod_lt _ (by rw [hlen]; omega)
  rw [List.getD_eq_getElem saltChars.data 'a' hm]
  have hall : ∀ ch ∈ saltChars.data, ch.isAlphanum = true := by decide
  exact hall _ (List.getElem_mem hm)

/-- The generated salt has between 10 and 16 characters, all alphanumeric. -/
theorem gen_salt_spec (r : Nat) (pick : Nat → Nat) :
    10 ≤ (gen_salt r pick).length ∧ (gen_salt r pick).length ≤ 16 ∧
    (gen_salt r pick).data.all Char.isAlphanum = true := by
  have hmod : r % 7 < 7 := Nat.mod_lt _ (by omega)
  refine ⟨?_, ?_, ?_⟩
  · simp [gen_salt, randint, String.length]
  · simp only [gen_salt, randint, String.length]
    simp
    omega
  · simp only [gen_salt, List.all_eq_true]
    intro ch hch
    obtain ⟨i, _, rfl⟩ := List.mem_map.mp hch
    exact randchoice_salt_alnum _

/-- C10: when the bundled sample offers no `sovpn_share_salt` value (key
absent, or present as JSON null — both read back as Python `None`), the
suggestion is a generated string of 10 to 16 alphanumeric characters, and
two calls may disagree. -/
theorem salt_suggestion_fallback (sample : FileData) (sp : List (String × JValue))
    (r : Nat) (pick : Nat → Nat)
    (hserver : List.lookup "server" sample = some sp)
    (hmiss : List.lookup "sovpn_share_salt" sp = none ∨
      List.lookup "sovpn_share_salt" sp = some JValue.jnull) :
    (∃ s : String, sovpn_share_salt_suggest sample r pick = .ok (.jstr s) ∧
      10 ≤ s.length ∧ s.length ≤ 16 ∧ s.data.all Char.isAlphanum = true) ∧
    (∃ r₁ p₁ r₂ p₂, sovpn_share_salt_suggest sample r₁ p₁ ≠
      sovpn_share_salt_suggest sample r₂ p₂) := by
  have hsug : ∀ (r' : Nat) (p' : Nat → Nat),
      sovpn_share_salt_suggest sample r' p' = .ok (.jstr (gen_salt r' p')) := by
    intro r' p'
    rcases hmiss with h | h <;>
      simp [sovpn_share_salt_suggest, get_value_from_sample, hserver, h]
  refine ⟨⟨gen_salt r pick, hsug r pick, (gen_salt_spec r pick).1,
    (gen_salt_spec r pick).2.1, (gen_salt_spec r pick).2.2⟩,
    ⟨0, fun _ => 0, 0, fun _ => 1, ?_⟩⟩
  simp only [hsug, ne_eq, Except.ok.injEq, JValue.jstr.injEq]
  decide

/-- C10 (witness): with a sample whose `server` pool is empty, the draw with
length seed 5 yields a 10-to-16-character alphanumeric salt, and different
draws can differ. -/
theorem salt_suggestion_fallback_witness :
    (∃ s : String, sovpn_share_salt_suggest [("server", [])] 5 (fun i => i) =
        .ok (.jstr s) ∧
      10 ≤ s.length ∧ s.length ≤ 16 ∧ s.data.all Char.isAlphanum = true) ∧
    (∃ r₁ p₁ r₂ p₂, sovpn_share_salt_suggest [("server", [])] r₁ p₁ ≠
      sovpn_share_salt_suggest [("server", [])] r₂ p₂) :=
  salt_suggestion_fallback [("server", [])] [] 5 (fun i => i) rfl (Or.inl rfl)

/-- C9: saving a fully-populated `server` pool and loading it back (through
the property setters that `setattr` invokes) reproduces every field's value
unchanged, with nothing printed, no exit and no exception — under the
invariants the store itself establishes: the directory fields denote
existing directories and are already sanitized, the hostname is valid, and
the protocol is `udp` or `tcp`. -/
theorem save_load_roundtrip (env : Env) (c : Config) (salt : JValue)
    (h p : String) (n : Int)
    (hsalt : c.sovpn_share_salt = some salt)
    (hhost : c.hostname = some h)
    (hport : c.port = some n)
    (hproto : c.protocol = some p)
    (hfile : env.file c.sovpn_config_file = some (save c))
    (hd1 : env.isdir c.server_dir = true)
    (hd2 : env.isdir c.easy_rsa_dir = true)
    (hd3 : env.isdir c.clients_dir = true)
    (hs1 : sanitize_path c.server_dir = c.server_dir)
    (hs2 : sanitize_path c.easy_rsa_dir = c.easy_rsa_dir)
    (hs3 : sanitize_path c.clients_dir = c.clients_dir)
    (hvh : is_valid_hostname h = true)
    (hp : p = "udp" ∨ p = "tcp") :
    load_config env c = okOut c := by
  have mm1 : "server_dir" ∈ dirNames := by decide
  have mm2 : "easy_rsa_dir" ∈ dirNames := by decide
  have mm3 : "clients_dir" ∈ dirNames := by decide
  have mm4 : "sovpn_config_file" ∈ dirNames := by decide
  have mm5 : "sovpn_share_salt" ∈ dirNames := by decide
  have mm6 : "hostname" ∈ dirNames := by decide
  have mm7 : "port" ∈ dirNames := by decide
  have mm8 : "protocol" ∈ dirNames := by decide
  have hu : strToLower "udp" = "udp" := by decide
  have ht : strToLower "tcp" = "tcp" := by decide
  have hcu : (["udp", "tcp"].contains "udp") = true := by decide
  have hct : (["udp", "tcp"].contains "tcp") = true := by decide
  obtain ⟨sd, er, cd, scf, sa, hn, ip, pt, pr, sl, pnm, cdir⟩ := c
  dsimp only at hsalt hhost hport hproto hfile hd1 hd2 hd3 hs1 hs2 hs3
  subst hsalt
  subst hhost
  subst hport
  subst hproto
  unfold load_config
  dsimp only
  rw [hfile]
  rcases hp with rfl | rfl <;>
    simp [save, stepKey, okOut, mm1, mm2, mm3, mm4, mm5, mm6, mm7, mm8,
      setattr_server_dir, setattr_easy_rsa_dir, setattr_clients_dir,
      setattr_sovpn_config_file, setattr_sovpn_share_salt, setattr_hostname,
      setattr_port, setattr_protocol,
      server_dir_set, easy_rsa_dir_set, clients_dir_set, sovpn_config_file_set,
      sovpn_share_salt_set, hostname_set, port_set, protocol_set,
      hd1, hd2, hd3, hs1, hs2, hs3, hvh, hu, ht, hcu, hct]

/-- C9 (witness): the concrete fully-populated pool `cFull` round-trips
through its saved file in the environment `envFull`. -/
theorem save_load_roundtrip_witness :
    load_config envFull cFull = okOut cFull :=
  save_load_roundtrip envFull cFull (JValue.jstr "s4ltAndPepper")
    "vpn.example.com" "udp" 1194 rfl rfl rfl rfl rfl rfl rfl rfl
    (by decide) (by decide) (by decide) (by decide) (Or.inl rfl)

end SOVPN
